import Mathlib

/-!
Verification development for the Rust TON contract deployer (`src/main.rs`).

The Rust program is shallowly embedded: every function of `src/main.rs` is
translated into an executable Lean definition of the same name.  Effects
(file reads, SDK calls, printing) are made explicit: each stateful function
returns a trace of `Effect`s together with its result.  The behaviour of the
environment (the file system, `serde_json` parsing of the config files, and
the external `ton_client` SDK) is a parameter `World`; the one piece of
external behaviour that the program constructs itself and that a claim
inspects in detail, the JSON text handed to `serde_json::from_str` by
`load_keypair`, is modelled by an executable JSON-object parser that follows
the `serde_json` grammar for objects whose member values are strings.

Rust `Option::unwrap` on `None` aborts the process; this is modelled by the
`Res.panicked` outcome, which propagates to the end of the run and yields
`RunExit.panicked` instead of a normal return from `main`.
-/

namespace Deployer

/-- `const NETWORK_URL` of the source. -/
def NETWORK_URL : String := "net.ton.dev"

/-- `const WORKCHAIN: i32 = 0` of the source. -/
def WORKCHAIN : Int := 0

/-- `const CONFIG_PATH` of the source. -/
def CONFIG_PATH : String := "config.json"

/-- `ton_client::crypto::KeyPair`: a public/secret key pair. -/
structure KeyPair where
  public : String
  secret : String
deriving DecidableEq

/-- Opaque parsed-JSON payload (a `serde_json::Value` whose internal
structure no claim inspects); represented by its source text. -/
structure Json where
  raw : String
deriving DecidableEq

/-- `ton_client::abi::AbiContract`, an opaque parsed ABI description,
represented by the text it was parsed from. -/
structure AbiContract where
  source : String
deriving DecidableEq

/-- `ton_client::abi::Abi` (only the `Contract` variant is used). -/
inductive Abi where
  | contract (c : AbiContract)
deriving DecidableEq

/-- `ton_client::abi::Signer`. -/
inductive Signer where
  | none
  | external (public_key : String)
  | keys (keys : KeyPair)
deriving DecidableEq

/-- `ton_client::abi::DeploySet` (fields the program sets). -/
structure DeploySet where
  tvc : String
  workchain_id : Option Int
deriving DecidableEq

/-- `ton_client::abi::CallSet` as built by
`CallSet::some_with_function_and_input`. -/
structure CallSet where
  function_name : String
  input : Option Json
deriving DecidableEq

/-- `ton_client::abi::ParamsOfEncodeMessage` (fields the program sets). -/
structure ParamsOfEncodeMessage where
  abi : Abi
  address : Option String
  deploy_set : Option DeploySet
  call_set : Option CallSet
  signer : Signer
deriving DecidableEq

/-- `ton_client::processing::ParamsOfProcessMessage` (fields the program
sets). -/
structure ParamsOfProcessMessage where
  message_encode_params : ParamsOfEncodeMessage
  send_events : Bool
deriving DecidableEq

/-- `ton_client::processing::ProcessingEvent`: the `DidSend` variant the
callback inspects, and a collective constructor for every other variant. -/
inductive ProcessingEvent where
  | didSend (shard_block_id : String) (message_id : String) (message : String)
  | otherEvent (kind : String)
deriving DecidableEq

/-- The `decoded` part of `ResultOfProcessMessage`. -/
structure DecodedOutput where
  output : Option Json
deriving DecidableEq

/-- `ResultOfProcessMessage` (fields the program reads). -/
structure ProcessResult where
  decoded : Option DecodedOutput
deriving DecidableEq

/-- The fields of `config.json` that `main` reads
(`config["initial_data"].as_str()`, `config["parameters"].as_str()`). -/
structure Config where
  initial_data : Option String
  parameters : Option String
deriving DecidableEq

/-- The fields of the initial-data JSON document that `deploy` reads via
`as_str()`. -/
structure InitialData where
  abi_path : Option String
  code_base64 : Option String
  public_key : Option String
  secret_key : Option String
deriving DecidableEq

/-- Observable effects of a run: file reads, SDK client construction,
the two SDK entry points the program calls, and standard-output lines. -/
inductive Effect where
  | fsRead (path : String)
  | clientCreate
  | encodeMsg (p : ParamsOfEncodeMessage)
  | processMsg (p : ParamsOfProcessMessage)
  | print (line : String)
deriving DecidableEq

/-- Result of a Rust computation that may return `Ok`, return `Err`, or
abort the process (`Option::unwrap` on `None`). -/
inductive Res (α : Type) where
  | ok (a : α)
  | err (e : String)
  | panicked
deriving DecidableEq

/-- How a whole process run ends. -/
inductive RunExit where
  | normal
  | panicked
deriving DecidableEq

/-- The environment: file system, `serde_json` parsing of the three config
documents, and the external `ton_client` SDK.  Each field is an oracle for
behaviour that is outside the repository. -/
structure World where
  fs : String → Except String String
  parseConfig : String → Except String Config
  parseInitialData : String → Except String InitialData
  parseAbiContract : String → Except String AbiContract
  parseJson : String → Except String Json
  createClientVerbose : Except String Unit
  getContext : Except String Unit
  encodeMessage : ParamsOfEncodeMessage → Except String String
  deliverEvents : ParamsOfProcessMessage → List ProcessingEvent
  processResult : ParamsOfProcessMessage → Except String ProcessResult

/-- The lines a trace prints to standard output, in order. -/
def outputOf (tr : List Effect) : List String :=
  tr.filterMap fun e =>
    match e with
    | Effect.print s => some s
    | _ => Option.none

/-! ### A model of `serde_json` parsing for `load_keypair`

`load_keypair` builds a JSON text by raw string interpolation and hands it
to `serde_json::from_str::<Option<KeyPair>>`.  The following executable
parser follows the `serde_json` grammar restricted to objects whose member
values are string literals (the only shape the interpolated template can
produce from string inputs): RFC 8259 whitespace, string escapes
(`\" \\ \/ \b \f \n \r \t \uXXXX`), rejection of raw control characters
below 0x20 inside strings, rejection of duplicate known fields and
tolerance of unknown fields (the `serde` derive defaults).  Surrogate-pair
`\u` escapes are rejected rather than combined; no claim exercises escape
sequences. -/

/-- JSON insignificant whitespace. -/
def isJsonWs (c : Char) : Bool :=
  c = ' ' || c = '\n' || c = '\t' || c = '\r'

/-- Skip insignificant whitespace. -/
def skipWs : List Char → List Char
  | [] => []
  | c :: cs => if isJsonWs c then skipWs cs else c :: cs

/-- Value of a hexadecimal digit. -/
def hexVal (c : Char) : Option Nat :=
  if '0' ≤ c ∧ c ≤ '9' then some (c.toNat - '0'.toNat)
  else if 'a' ≤ c ∧ c ≤ 'f' then some (c.toNat - 'a'.toNat + 10)
  else if 'A' ≤ c ∧ c ≤ 'F' then some (c.toNat - 'A'.toNat + 10)
  else Option.none

/-- Single-character JSON escapes. -/
def simpleEscape (e : Char) : Option Char :=
  if e = '"' then some '"'
  else if e = '\\' then some '\\'
  else if e = '/' then some '/'
  else if e = 'b' then some (Char.ofNat 8)
  else if e = 'f' then some (Char.ofNat 12)
  else if e = 'n' then some '\n'
  else if e = 'r' then some (Char.ofNat 13)
  else if e = 't' then some '\t'
  else Option.none

/-- Parse the body of a JSON string literal (the opening quote already
consumed); returns the decoded characters and the input after the closing
quote. -/
def parseStringBody : List Char → Option (List Char × List Char)
  | [] => Option.none
  | c :: rest =>
    if c = '"' then some ([], rest)
    else if c = '\\' then
      match rest with
      | [] => Option.none
      | e :: rest2 =>
        if e = 'u' then
          match rest2 with
          | a :: b :: c2 :: d :: tail =>
            match hexVal a, hexVal b, hexVal c2, hexVal d with
            | some h1, some h2, some h3, some h4 =>
              let n := ((h1 * 16 + h2) * 16 + h3) * 16 + h4
              if 0xD800 ≤ n ∧ n ≤ 0xDFFF then Option.none
              else
                match parseStringBody tail with
                | some (sres, r) => some (Char.ofNat n :: sres, r)
                | Option.none => Option.none
            | _, _, _, _ => Option.none
          | _ => Option.none
        else
          match simpleEscape e with
          | some ch =>
            match parseStringBody rest2 with
            | some (sres, r) => some (ch :: sres, r)
            | Option.none => Option.none
          | Option.none => Option.none
    else if c.toNat < 32 then Option.none
    else
      match parseStringBody rest with
      | some (sres, r) => some (c :: sres, r)
      | Option.none => Option.none

/-- Parse one `"key" : "value"` object member. -/
def parseMember (l : List Char) : Option ((List Char × List Char) × List Char) :=
  match skipWs l with
  | [] => Option.none
  | c :: rest =>
    if c = '"' then
      match parseStringBody rest with
      | some (key, rest2) =>
        match skipWs rest2 with
        | [] => Option.none
        | c2 :: rest3 =>
          if c2 = ':' then
            match skipWs rest3 with
            | [] => Option.none
            | c3 :: rest4 =>
              if c3 = '"' then
                match parseStringBody rest4 with
                | some (val, rest5) => some ((key, val), rest5)
                | Option.none => Option.none
              else Option.none
          else Option.none
      | Option.none => Option.none
    else Option.none

/-- Parse the members after the first one: a `,`-separated tail closed by
`}`.  The fuel argument bounds the number of members; every member consumes
at least one character, so fuel `length + 1` is always sufficient. -/
def parseMembersRest : Nat → List Char → Option (List (List Char × List Char) × List Char)
  | 0, _ => Option.none
  | fuel + 1, l =>
    match skipWs l with
    | [] => Option.none
    | c :: rest =>
      if c = '}' then some ([], rest)
      else if c = ',' then
        match parseMember rest with
        | some (m, r) =>
          match parseMembersRest fuel r with
          | some (ms, r2) => some (m :: ms, r2)
          | Option.none => Option.none
        | Option.none => Option.none
      else Option.none

/-- Parse a whole input as one JSON object with string members, requiring
only whitespace after it (the `from_str` end-of-input check). -/
def parseTopObject (l : List Char) : Option (List (List Char × List Char)) :=
  match skipWs l with
  | [] => Option.none
  | c :: rest =>
    if c = '{' then
      match skipWs rest with
      | [] => Option.none
      | c2 :: rest2 =>
        if c2 = '}' then
          if (skipWs rest2).isEmpty then some [] else Option.none
        else
          match parseMember rest with
          | some (m, r) =>
            match parseMembersRest (r.length + 1) r with
            | some (ms, r2) =>
              if (skipWs r2).isEmpty then some (m :: ms) else Option.none
            | Option.none => Option.none
          | Option.none => Option.none
    else Option.none

/-- The `serde` derive for `KeyPair`: collect the `public` and `secret`
members, rejecting duplicates, ignoring unknown fields, requiring both. -/
def keyPairOfMembers : List (List Char × List Char) → Option (List Char) → Option (List Char) → Option KeyPair
  | [], some pv, some sv => some { public := String.mk pv, secret := String.mk sv }
  | [], _, _ => Option.none
  | (k, v) :: rest, accP, accS =>
    if k = "public".data then
      match accP with
      | some _ => Option.none
      | Option.none => keyPairOfMembers rest (some v) accS
    else if k = "secret".data then
      match accS with
      | some _ => Option.none
      | Option.none => keyPairOfMembers rest accP (some v)
    else keyPairOfMembers rest accP accS

/-- `serde_json::from_str::<Option<KeyPair>>` on an object-shaped input. -/
def serdeParseKeyPair (s : String) : Option KeyPair :=
  match parseTopObject s.data with
  | some ms => keyPairOfMembers ms Option.none Option.none
  | Option.none => Option.none

/-- The interpolated template of `load_keypair`
(`format!` with the raw-string literal of lines 187-190). -/
def keypairFormat (p s : String) : String :=
  "\x7b\n            \"public\": \"" ++ p ++ "\",\n            \"secret\": \"" ++ s
    ++ "\"\n        \x7d"

/-- Placeholder for the `serde_json` error text (no claim inspects it). -/
def keypairParseErrMsg : String := "invalid keypair JSON"

/-- `load_keypair` (lines 185-195). -/
def load_keypair (public_key secret_key : Option String) : Except String (Option KeyPair) :=
  match public_key, secret_key with
  | some p, some s =>
    match serdeParseKeyPair (keypairFormat p s) with
    | some kp => Except.ok (some kp)
    | Option.none => Except.error ("failed to load keypair: " ++ keypairParseErrMsg)
  | _, _ => Except.ok Option.none

/-! ### The program flow -/

/-- `load_abi` (lines 65-68): the ABI "loader" only unwraps the optional
path string. -/
def load_abi (abi_path : Option String) : Except String String :=
  match abi_path with
  | some s => Except.ok s
  | Option.none => Except.error "ABI file is not defined. Supply it in the config.json."

/-- `load_params` (lines 70-77): a string without `\x7b` is a file path to
read; otherwise the string itself is the parameters text. -/
def load_params (w : World) (params : String) : List Effect × Except String String :=
  if params.data.contains '{' = false then
    match w.fs params with
    | Except.ok c => ([Effect.fsRead params], Except.ok c)
    | Except.error e =>
      ([Effect.fsRead params], Except.error ("failed to load params from file: " ++ e))
  else ([], Except.ok params)

/-- The `ParamsOfEncodeMessage` built inside `calc_acc_address`
(lines 160-178): deploy set from the image and workchain, signer from the
optional public key (`Signer::External` when present, `Signer::None`
otherwise), no address and no call set. -/
def calcParams (tvc_base64 : String) (pubkey : Option String) (abi : Abi) :
    ParamsOfEncodeMessage :=
  { abi := abi
    address := Option.none
    deploy_set := some { tvc := tvc_base64, workchain_id := some WORKCHAIN }
    call_set := Option.none
    signer :=
      match pubkey with
      | some pb => Signer.external pb
      | Option.none => Signer.none }

/-- `calc_acc_address` (lines 154-183): build the encode params and ask the
SDK for the address. -/
def calc_acc_address (w : World) (tvc_base64 : String) (pubkey : Option String) (abi : Abi) :
    List Effect × Except String String :=
  match w.getContext with
  | Except.error e => ([Effect.clientCreate], Except.error ("failed to create client context: " ++ e))
  | Except.ok _ =>
    match w.encodeMessage (calcParams tvc_base64 pubkey abi) with
    | Except.error e =>
      ([Effect.clientCreate, Effect.encodeMsg (calcParams tvc_base64 pubkey abi)],
       Except.error ("cannot generate address: " ++ e))
    | Except.ok addr =>
      ([Effect.clientCreate, Effect.encodeMsg (calcParams tvc_base64 pubkey abi)],
       Except.ok addr)

/-- The `ResultOfProcessMessage` post-processing of `process_message`
(line 123): `res.decoded.and_then(.output).unwrap_or(json!(\x7b\x7d))`. -/
def jsonOutputOf (r : ProcessResult) : Json :=
  (r.decoded.bind fun d => d.output).getD { raw := "\x7b\x7d" }

/-- The event callback of `process_message` (lines 96-100): print the
message id on `DidSend`, nothing on any other event. -/
def callbackOutput (e : ProcessingEvent) : Option Effect :=
  match e with
  | ProcessingEvent.didSend _ message_id _ => some (Effect.print ("MessageId: " ++ message_id))
  | _ => Option.none

/-- `process_message` (lines 91-124): submit with `send_events: true`; with
`is_json` false the callback prints `MessageId` lines while the call runs,
with `is_json` true the callback is silent. -/
def processParams (msg : ParamsOfEncodeMessage) : ParamsOfProcessMessage :=
  { message_encode_params := msg, send_events := true }

/-- The `MessageId` lines the callback prints for the delivered events. -/
def callbackPrints (w : World) (msg : ParamsOfEncodeMessage) (is_json : Bool) : List Effect :=
  if is_json then [] else (w.deliverEvents (processParams msg)).filterMap callbackOutput

def process_message (w : World) (msg : ParamsOfEncodeMessage) (is_json : Bool) :
    List Effect × Except String Json :=
  match w.processResult (processParams msg) with
  | Except.error e =>
    (Effect.processMsg (processParams msg) :: callbackPrints w msg is_json, Except.error e)
  | Except.ok res =>
    (Effect.processMsg (processParams msg) :: callbackPrints w msg is_json,
     Except.ok (jsonOutputOf res))

/-- The deployment message built at the end of `prepare_deploy_message`
(lines 222-233): same image and workchain as the address computation, the
computed address as target, a constructor call set, and the loaded keypair
as the signer. -/
def deployMessage (code_base64 : String) (abi : Abi) (pjson : Json) (addr : String)
    (kp : KeyPair) : ParamsOfEncodeMessage :=
  { abi := abi
    address := some addr
    deploy_set := some { tvc := code_base64, workchain_id := some WORKCHAIN }
    call_set := some { function_name := "constructor", input := some pjson }
    signer := Signer.keys kp }

/-- `prepare_deploy_message` (lines 197-234).  Note the final
`keypair.unwrap()` of line 231: when no keypair was loaded the function
aborts the process after having computed the address. -/
def prepare_deploy_message (w : World) (code_base64 abi_path params : String)
    (public_key secret_key : Option String) :
    List Effect × Res (ParamsOfEncodeMessage × String) :=
  match w.fs abi_path with
  | Except.error e =>
    ([Effect.fsRead abi_path], Res.err ("failed to read ABI file: " ++ e))
  | Except.ok abi_str =>
    match w.parseAbiContract abi_str with
    | Except.error e =>
      ([Effect.fsRead abi_path], Res.err ("ABI is not a valid json: " ++ e))
    | Except.ok c =>
      match load_keypair public_key secret_key with
      | Except.error e => ([Effect.fsRead abi_path], Res.err e)
      | Except.ok keypair =>
        match calc_acc_address w code_base64 (keypair.map fun k => k.public) (Abi.contract c) with
        | (tr1, Except.error e) => (Effect.fsRead abi_path :: tr1, Res.err e)
        | (tr1, Except.ok addr) =>
          match w.parseJson params with
          | Except.error e =>
            (Effect.fsRead abi_path :: tr1,
             Res.err ("function arguments is not a json: " ++ e))
          | Except.ok pjson =>
            match keypair with
            | Option.none => (Effect.fsRead abi_path :: tr1, Res.panicked)
            | some kp =>
              (Effect.fsRead abi_path :: tr1,
               Res.ok (deployMessage code_base64 (Abi.contract c) pjson addr kp, addr))

/-- `deploy_contract` (lines 126-147): create the client, prepare the
message, submit it, and report success with the deployed address. -/
def deploy_contract (w : World) (code_base64 abi params : String)
    (public_key secret_key : Option String) : List Effect × Res Unit :=
  match w.createClientVerbose with
  | Except.error e => ([Effect.clientCreate], Res.err ("failed to create tonclient: " ++ e))
  | Except.ok _ =>
    match prepare_deploy_message w code_base64 abi params public_key secret_key with
    | (tr1, Res.err e) => (Effect.clientCreate :: tr1, Res.err e)
    | (tr1, Res.panicked) => (Effect.clientCreate :: tr1, Res.panicked)
    | (tr1, Res.ok (msg, addr)) =>
      match process_message w msg false with
      | (tr2, Except.error e) => (Effect.clientCreate :: (tr1 ++ tr2), Res.err e)
      | (tr2, Except.ok _) =>
        (Effect.clientCreate :: (tr1 ++ tr2)
           ++ [Effect.print "Transaction succeeded.",
               Effect.print ("Contract deployed at address: " ++ addr)],
         Res.ok ())

/-- `deploy` (lines 50-63).  Line 54 resolves the ABI path, line 55 calls
`params.unwrap()` (a panic when the `parameters` config field is absent),
and line 57 calls `initial_data["code_base64"].as_str().unwrap()` (a panic
when that field is absent). -/
def deploy (w : World) (params : Option String) (initial_data : InitialData) :
    List Effect × Res Unit :=
  match load_abi initial_data.abi_path with
  | Except.error e => ([], Res.err e)
  | Except.ok abi =>
    match params with
    | Option.none => ([], Res.panicked)
    | some ps =>
      match load_params w ps with
      | (trp, Except.error e) => (trp, Res.err e)
      | (trp, Except.ok ps2) =>
        match initial_data.code_base64 with
        | Option.none => (trp, Res.panicked)
        | some code =>
          match deploy_contract w code abi ps2 initial_data.public_key initial_data.secret_key with
          | (tr2, r) => (trp ++ tr2, r)

/-- `get_config` (lines 46-48): read `config.json` and parse it. -/
def get_config (w : World) : List Effect × Except String Config :=
  match w.fs CONFIG_PATH with
  | Except.error e => ([Effect.fsRead CONFIG_PATH], Except.error e)
  | Except.ok s => ([Effect.fsRead CONFIG_PATH], w.parseConfig s)

/-- `get_initial_data` (lines 39-44): read and parse the file named by the
`initial_data` config field, or fail when the field is absent. -/
def get_initial_data (w : World) (path : Option String) :
    List Effect × Except String InitialData :=
  match path with
  | Option.none =>
    ([], Except.error "initial data file is not defined. Supply path in the `config.json`.")
  | some p =>
    match w.fs p with
    | Except.error e => ([Effect.fsRead p], Except.error e)
    | Except.ok s => ([Effect.fsRead p], w.parseInitialData s)

/-- `main` (lines 20-37): load the config and initial data (each failure
printed with its own message and a normal return), run `deploy`, and print
`Ok` or `Fail: <message>`.  A panic inside `deploy` ends the process
abnormally with no further output. -/
def main (w : World) : List Effect × RunExit :=
  match get_config w with
  | (tr0, Except.error e) =>
    (tr0 ++ [Effect.print ("Cannot load config: " ++ e)], RunExit.normal)
  | (tr0, Except.ok config) =>
    match get_initial_data w config.initial_data with
    | (tr1, Except.error e) =>
      (tr0 ++ tr1 ++ [Effect.print ("Cannot load initial data: " ++ e)], RunExit.normal)
    | (tr1, Except.ok initial_data) =>
      match deploy w config.parameters initial_data with
      | (tr2, Res.ok _) => (tr0 ++ tr1 ++ tr2 ++ [Effect.print "Ok"], RunExit.normal)
      | (tr2, Res.err e) =>
        (tr0 ++ tr1 ++ tr2 ++ [Effect.print ("Fail: " ++ e)], RunExit.normal)
      | (tr2, Res.panicked) => (tr0 ++ tr1 ++ tr2, RunExit.panicked)

/-! ### Auxiliary definitions for the statements -/

/-- A character that is neither a double quote, nor a backslash, nor a
control character below 0x20: inside a JSON string literal such a character
stands for itself. -/
def goodChar (c : Char) : Bool :=
  !(c == '"') && !(c == '\\') && decide (32 ≤ c.toNat)

/-- A string all of whose characters are `goodChar`. -/
def goodString (s : String) : Bool := s.data.all goodChar

/-! ### Concrete environments used by witnesses and counterexamples -/

/-- An environment in which every stage succeeds: the config file names an
initial-data file with ABI path, image, and both keys; the SDK returns the
address `0:1234` and a successful processing result after one `DidSend`
event. -/
def wOk : World :=
  { fs := fun p =>
      if p = "config.json" then Except.ok "CFG"
      else if p = "data.json" then Except.ok "DATA"
      else if p = "abi.json" then Except.ok "ABIJSON"
      else Except.error "enoent"
    parseConfig := fun _ =>
      Except.ok { initial_data := some "data.json", parameters := some "\x7b\x7d" }
    parseInitialData := fun _ =>
      Except.ok
        { abi_path := some "abi.json", code_base64 := some "tvc0"
          public_key := some "aa", secret_key := some "bb" }
    parseAbiContract := fun s => Except.ok { source := s }
    parseJson := fun s => Except.ok { raw := s }
    createClientVerbose := Except.ok ()
    getContext := Except.ok ()
    encodeMessage := fun _ => Except.ok "0:1234"
    deliverEvents := fun _ =>
      [ProcessingEvent.didSend "shard" "msgid1" "m",
       ProcessingEvent.otherEvent "WillFetchFirstBlock"]
    processResult := fun _ => Except.ok { decoded := Option.none } }

/-- `wOk` with the `parameters` field absent from the config. -/
def wNoParams : World :=
  { wOk with
    parseConfig := fun _ =>
      Except.ok { initial_data := some "data.json", parameters := Option.none } }

/-- `wOk` with both key fields absent from the initial data. -/
def wNoKeys : World :=
  { wOk with
    parseInitialData := fun _ =>
      Except.ok
        { abi_path := some "abi.json", code_base64 := some "tvc0"
          public_key := Option.none, secret_key := Option.none } }

/-- `wOk` except that the ABI file does not exist. -/
def wMissingAbiFile : World :=
  { wOk with
    fs := fun p =>
      if p = "config.json" then Except.ok "CFG"
      else if p = "data.json" then Except.ok "DATA"
      else Except.error "enoent" }

/-- The ABI file does not exist and the `parameters` field is absent. -/
def wMissingAbiFileNoParams : World :=
  { wMissingAbiFile with
    parseConfig := fun _ =>
      Except.ok { initial_data := some "data.json", parameters := Option.none } }

/-- An environment in which reading `config.json` fails. -/
def wBadConfig : World :=
  { wOk with fs := fun _ => Except.error "boom" }

/-- `wOk` with the ABI path absent from the initial data. -/
def wNoAbiPath : World :=
  { wOk with
    parseInitialData := fun _ =>
      Except.ok
        { abi_path := Option.none, code_base64 := some "tvc0"
          public_key := some "aa", secret_key := some "bb" } }

/-- An environment exercising the file branch of `load_params`: `p.json`
holds valid JSON text, `q.json` is unreadable, `px.json` holds text that is
not JSON, and the key fields are absent. -/
def wParamsFile : World :=
  { wOk with
    fs := fun p =>
      if p = "config.json" then Except.ok "CFG"
      else if p = "data.json" then Except.ok "DATA"
      else if p = "abi.json" then Except.ok "ABIJSON"
      else if p = "p.json" then Except.ok "[1]"
      else if p = "px.json" then Except.ok "notjson"
      else Except.error "enoent"
    parseJson := fun s =>
      if s = "notjson" then Except.error "expected value at line 1 column 1"
      else Except.ok { raw := s }
    parseInitialData := fun _ =>
      Except.ok
        { abi_path := some "abi.json", code_base64 := some "tvc0"
          public_key := Option.none, secret_key := Option.none } }

/-- The initial data parsed by `wParamsFile`. -/
def idataParamsFile : InitialData :=
  { abi_path := some "abi.json", code_base64 := some "tvc0"
    public_key := Option.none, secret_key := Option.none }

/-- The encode params `calc_acc_address` sends in `wOk` runs. -/
def pEncOk : ParamsOfEncodeMessage :=
  { abi := Abi.contract { source := "ABIJSON" }
    address := Option.none
    deploy_set := some { tvc := "tvc0", workchain_id := some 0 }
    call_set := Option.none
    signer := Signer.external "aa" }

/-- The deployment message produced in `wOk` runs. -/
def msgOk : ParamsOfEncodeMessage :=
  { abi := Abi.contract { source := "ABIJSON" }
    address := some "0:1234"
    deploy_set := some { tvc := "tvc0", workchain_id := some 0 }
    call_set := some { function_name := "constructor", input := some { raw := "\x7b\x7d" } }
    signer := Signer.keys { public := "aa", secret := "bb" } }

/-- The encode params `calc_acc_address` sends when no keypair is present
(`wNoKeys` runs): the signer is the unsigned variant. -/
def pEncNoKeys : ParamsOfEncodeMessage :=
  { abi := Abi.contract { source := "ABIJSON" }
    address := Option.none
    deploy_set := some { tvc := "tvc0", workchain_id := some 0 }
    call_set := Option.none
    signer := Signer.none }

/-- The encode params `calc_acc_address` sends in `wParamsFile` runs. -/
def pEncNoKeysJson : ParamsOfEncodeMessage :=
  { abi := Abi.contract { source := "ABIJSON" }
    address := Option.none
    deploy_set := some { tvc := "tvc0", workchain_id := some 0 }
    call_set := Option.none
    signer := Signer.none }

/-- `wOk` with the `code_base64` field absent from the initial data. -/
def wNoCode : World :=
  { wOk with
    parseInitialData := fun _ =>
      Except.ok
        { abi_path := some "abi.json", code_base64 := Option.none
          public_key := some "aa", secret_key := some "bb" } }

/-- The trace of a successful `prepare_deploy_message` in `wOk`. -/
def trC4 : List Effect :=
  [Effect.fsRead "abi.json", Effect.clientCreate, Effect.encodeMsg pEncOk]

/-- The trace of a successful `deploy_contract` run in `wOk`. -/
def trC8 : List Effect :=
  (deploy_contract wOk "tvc0" "abi.json" "\x7b\x7d" (some "aa") (some "bb")).1

/-! ## Helper lemmas -/

lemma parseStringBody_good (p : List Char) (h : ∀ c ∈ p, goodChar c = true) (l : List Char) :
    parseStringBody (p ++ '"' :: l) = some (p, l) := by
  induction p with
  | nil => unfold parseStringBody; simp
  | cons c cs ih =>
    have hc := h c (by simp)
    simp [goodChar] at hc
    obtain ⟨⟨h1, h2⟩, h3⟩ := hc
    have ih2 := ih (fun d hd => h d (by simp [hd]))
    unfold parseStringBody
    simp [h1, h2, ih2]
    omega

lemma skipWs_space (l : List Char) : skipWs (' ' :: l) = skipWs l := rfl

lemma skipWs_newline (l : List Char) : skipWs ('\n' :: l) = skipWs l := rfl

lemma skipWs_quote (l : List Char) : skipWs ('"' :: l) = '"' :: l := rfl

lemma skipWs_colon (l : List Char) : skipWs (':' :: l) = ':' :: l := rfl

lemma skipWs_lbrace (l : List Char) : skipWs ('{' :: l) = '{' :: l := rfl

lemma skipWs_comma (l : List Char) : skipWs (',' :: l) = ',' :: l := rfl

lemma skipWs_rbrace (l : List Char) : skipWs ('}' :: l) = '}' :: l := rfl

lemma skipWs_nil : skipWs [] = [] := rfl

lemma parseMember_template (key val : List Char)
    (hk : ∀ c ∈ key, goodChar c = true) (hv : ∀ c ∈ val, goodChar c = true) (rest : List Char) :
    parseMember ('"' :: (key ++ '"' :: ':' :: ' ' :: '"' :: (val ++ '"' :: rest))) =
      some ((key, val), rest) := by
  unfold parseMember
  rw [skipWs_quote]
  simp [parseStringBody_good key hk, parseStringBody_good val hv, skipWs_space, skipWs_quote,
    skipWs_colon]

lemma parseMember_newline (l : List Char) : parseMember ('\n' :: l) = parseMember l := rfl

lemma parseMember_space (l : List Char) : parseMember (' ' :: l) = parseMember l := rfl

lemma parseTopObject_template (p s : List Char)
    (hp : ∀ c ∈ p, goodChar c = true) (hs : ∀ c ∈ s, goodChar c = true) :
    parseTopObject
      ('{' :: '\n' :: ' ' :: ' ' :: ' ' :: ' ' :: ' ' :: ' ' :: ' ' :: ' ' :: ' ' :: ' ' :: ' ' :: ' ' ::
       '"' :: ("public".data ++ '"' :: ':' :: ' ' :: '"' ::
        (p ++ '"' :: ',' :: '\n' :: ' ' :: ' ' :: ' ' :: ' ' :: ' ' :: ' ' :: ' ' :: ' ' :: ' ' :: ' ' :: ' ' :: ' ' ::
         '"' :: ("secret".data ++ '"' :: ':' :: ' ' :: '"' ::
          (s ++ '"' :: '\n' :: ' ' :: ' ' :: ' ' :: ' ' :: ' ' :: ' ' :: ' ' :: ' ' :: '}' :: []))))) =
      some [("public".data, p), ("secret".data, s)] := by
  have hm1 := parseMember_template "public".data p (by decide) hp
  have hm2 := parseMember_template "secret".data s (by decide) hs
  simp only [List.cons_append, List.nil_append, String.data] at hm1 hm2 ⊢
  unfold parseTopObject
  rw [skipWs_lbrace]
  simp only [skipWs_newline, skipWs_space, skipWs_quote]
  simp [parseMember_newline, parseMember_space, hm1, hm2,
    parseMembersRest, skipWs_comma, skipWs_newline, skipWs_space, skipWs_rbrace, skipWs_quote,
    skipWs_nil]

lemma keypairFormat_chars (p s : String) :
    (keypairFormat p s).data =
      '{' :: '\n' :: ' ' :: ' ' :: ' ' :: ' ' :: ' ' :: ' ' :: ' ' :: ' ' :: ' ' :: ' ' :: ' ' :: ' ' ::
       '"' :: ("public".data ++ '"' :: ':' :: ' ' :: '"' ::
        (p.data ++ '"' :: ',' :: '\n' :: ' ' :: ' ' :: ' ' :: ' ' :: ' ' :: ' ' :: ' ' :: ' ' :: ' ' :: ' ' :: ' ' :: ' ' ::
         '"' :: ("secret".data ++ '"' :: ':' :: ' ' :: '"' ::
          (s.data ++ '"' :: '\n' :: ' ' :: ' ' :: ' ' :: ' ' :: ' ' :: ' ' :: ' ' :: ' ' :: '}' :: [])))) := by
  simp only [keypairFormat, String.data_append, List.append_assoc]
  rfl

lemma string_mk_data (s : String) : String.mk s.data = s := by cases s; rfl

lemma serdeParseKeyPair_good (p s : String)
    (hp : goodString p = true) (hs : goodString s = true) :
    serdeParseKeyPair (keypairFormat p s) = some { public := p, secret := s } := by
  have hp2 : ∀ c ∈ p.data, goodChar c = true := by
    simpa [goodString, List.all_eq_true] using hp
  have hs2 : ∀ c ∈ s.data, goodChar c = true := by
    simpa [goodString, List.all_eq_true] using hs
  unfold serdeParseKeyPair
  rw [keypairFormat_chars, parseTopObject_template p.data s.data hp2 hs2]
  simp [keyPairOfMembers, string_mk_data]

lemma calc_acc_address_ok_inv {w : World} {tvc : String} {pub : Option String} {abi : Abi}
    {tr : List Effect} {addr : String}
    (h : calc_acc_address w tvc pub abi = (tr, Except.ok addr)) :
    w.encodeMessage (calcParams tvc pub abi) = Except.ok addr ∧
    tr = [Effect.clientCreate, Effect.encodeMsg (calcParams tvc pub abi)] := by
  unfold calc_acc_address at h
  split at h
  · simp at h
  · split at h
    · simp at h
    · rename_i heq
      simp at h
      obtain ⟨h1, h2⟩ := h
      subst h1 h2
      exact ⟨heq, rfl⟩

lemma prepare_deploy_message_ok_inv {w : World} {code ap params : String}
    {pk sk : Option String} {tr : List Effect} {msg : ParamsOfEncodeMessage} {addr : String}
    (h : prepare_deploy_message w code ap params pk sk = (tr, Res.ok (msg, addr))) :
    ∃ (abi_str : String) (c : AbiContract) (kp : KeyPair) (pjson : Json),
      w.fs ap = Except.ok abi_str ∧
      w.parseAbiContract abi_str = Except.ok c ∧
      load_keypair pk sk = Except.ok (some kp) ∧
      w.parseJson params = Except.ok pjson ∧
      w.encodeMessage (calcParams code (some kp.public) (Abi.contract c)) = Except.ok addr ∧
      msg = deployMessage code (Abi.contract c) pjson addr kp ∧
      tr = [Effect.fsRead ap, Effect.clientCreate,
            Effect.encodeMsg (calcParams code (some kp.public) (Abi.contract c))] := by
  unfold prepare_deploy_message at h
  split at h
  · simp at h
  · rename_i abi_str hfs
    split at h
    · simp at h
    · rename_i c hac
      split at h
      · simp at h
      · rename_i keypair hkp
        split at h
        · simp at h
        · rename_i tr1 addr1 hcalc
          split at h
          · simp at h
          · rename_i pjson hpj
            split at h
            · simp at h
            · rename_i kp
              simp at h
              obtain ⟨h1, ⟨h2, h3⟩⟩ := h
              obtain ⟨hca, htr⟩ := calc_acc_address_ok_inv hcalc
              subst h1 h2 h3
              subst htr
              exact ⟨abi_str, c, kp, pjson, hfs, hac, hkp, hpj, by simpa using hca, rfl, rfl⟩

lemma outputOf_append (a b : List Effect) : outputOf (a ++ b) = outputOf a ++ outputOf b := by
  simp [outputOf, List.filterMap_append]

lemma outputOf_print (a : List Effect) (s : String) :
    outputOf (a ++ [Effect.print s]) = outputOf a ++ [s] := by
  simp [outputOf_append, outputOf]

lemma load_params_trace {w : World} {s : String} {tr : List Effect} {r : Except String String}
    (h : load_params w s = (tr, r)) : tr = [] ∨ tr = [Effect.fsRead s] := by
  unfold load_params at h
  split at h
  · split at h
    · simp at h
      first
      | exact Or.inr h.1
      | exact Or.inr h.1.symm
    · simp at h
      first
      | exact Or.inr h.1
      | exact Or.inr h.1.symm
  · simp at h
    exact Or.inl h.1

/-! ## Claim C10 -/

/-- Claim C10, counterexample to the claim as stated: the string consisting
of one newline character contains neither a double quote nor a backslash,
yet `load_keypair` rejects it with a parse error instead of returning a
keypair with the fields preserved — `serde_json` refuses raw control
characters inside string literals. -/
theorem claim_C10_counterexample :
    ('"' ∉ "\n".data ∧ '\\' ∉ "\n".data) ∧
    load_keypair (some "\n") (some "x") =
      Except.error ("failed to load keypair: " ++ keypairParseErrMsg) ∧
    load_keypair (some "\n") (some "x") ≠
      Except.ok (some { public := "\n", secret := "x" }) := by
  refine ⟨by decide, rfl, ?_⟩
  intro h
  rw [show load_keypair (some "\n") (some "x")
      = Except.error ("failed to load keypair: " ++ keypairParseErrMsg) from rfl] at h
  exact Except.noConfusion h

/-- Claim C10 (amended): `load_keypair` assembles the keypair by raw string
interpolation without escaping; for every pair of strings containing no
double quote, no backslash, and no control character below 0x20 it returns
`Some` keypair with both fields preserved, while an input consisting of a
double-quote character makes the interpolated text invalid JSON and yields
a parse error. -/
theorem claim_C10_keypair_interpolation :
    (∀ p s : String, goodString p = true → goodString s = true →
      load_keypair (some p) (some s) = Except.ok (some { public := p, secret := s })) ∧
    ('"' ∈ "\"".data ∧
     load_keypair (some "\"") (some "x") =
       Except.error ("failed to load keypair: " ++ keypairParseErrMsg)) := by
  constructor
  · intro p s hp hs
    simp [load_keypair, serdeParseKeyPair_good p s hp hs]
  · exact ⟨by decide, rfl⟩

/-- Witness for claim C10: the amended theorem evaluated at the concrete
pair `"aa"`, `"bb"`. -/
theorem claim_C10_witness :
    goodString "aa" = true ∧ goodString "bb" = true ∧
    load_keypair (some "aa") (some "bb") =
      Except.ok (some { public := "aa", secret := "bb" }) :=
  ⟨by decide, by decide,
    claim_C10_keypair_interpolation.1 "aa" "bb" (by decide) (by decide)⟩

/-! ## Claim C1 -/

/-- Claim C1 demonstration of the code bug: with a valid config that lacks
the `parameters` field (`wNoParams`), and likewise with initial data that
lacks the `code_base64` field (`wNoCode`), the run aborts through
`Option::unwrap` on `None` inside `deploy` instead of returning normally
with a printed message; nothing at all is printed. -/
theorem claim_C1_unwrap_panics :
    (main wNoParams =
       ([Effect.fsRead "config.json", Effect.fsRead "data.json"], RunExit.panicked) ∧
     outputOf (main wNoParams).1 = []) ∧
    (main wNoCode =
       ([Effect.fsRead "config.json", Effect.fsRead "data.json"], RunExit.panicked) ∧
     outputOf (main wNoCode).1 = []) :=
  ⟨⟨rfl, rfl⟩, ⟨rfl, rfl⟩⟩

/-! ## Claim C2 -/

/-- Claim C2 demonstration of the code bug: when the secret key (or both
keys) is absent, `load_keypair` indeed resolves to no keypair and the
address computation indeed uses the unsigned `Signer::None` variant — but
the deployment does not proceed unsigned: `prepare_deploy_message` then
aborts the process at `keypair.unwrap()` while building the message
signer. -/
theorem claim_C2_unsigned_address_then_panic :
    load_keypair Option.none Option.none = Except.ok Option.none ∧
    load_keypair (some "aa") Option.none = Except.ok Option.none ∧
    prepare_deploy_message wNoKeys "tvc0" "abi.json" "\x7b\x7d" Option.none Option.none =
      ([Effect.fsRead "abi.json", Effect.clientCreate, Effect.encodeMsg pEncNoKeys],
       Res.panicked) ∧
    pEncNoKeys.signer = Signer.none :=
  ⟨rfl, rfl, rfl, rfl⟩

/-! ## Claim C3 -/

/-- Claim C3: a parameters string without a `\x7b` character is treated as
a file path — `load_params` reads that file, returning its contents on
success and a `failed to load params from file` error on read failure — a
string with a `\x7b` anywhere is returned unchanged, and the resulting
string is what the deployment later parses as JSON, failing with a
`function arguments is not a json` error when it is invalid. -/
theorem claim_C3_params_resolution (w : World) (s : String) :
    (s.data.contains '{' = false →
      (∀ c, w.fs s = Except.ok c → load_params w s = ([Effect.fsRead s], Except.ok c)) ∧
      (∀ e, w.fs s = Except.error e →
        load_params w s =
          ([Effect.fsRead s], Except.error ("failed to load params from file: " ++ e)))) ∧
    (s.data.contains '{' = true → load_params w s = ([], Except.ok s)) ∧
    (∀ (idata : InitialData) (ap code q abi_str e : String) (c : AbiContract)
       (kp : Option KeyPair) (trp trc : List Effect) (addr : String),
        idata.abi_path = some ap →
        idata.code_base64 = some code →
        load_params w s = (trp, Except.ok q) →
        w.createClientVerbose = Except.ok () →
        w.fs ap = Except.ok abi_str →
        w.parseAbiContract abi_str = Except.ok c →
        load_keypair idata.public_key idata.secret_key = Except.ok kp →
        calc_acc_address w code (kp.map fun k => k.public) (Abi.contract c) =
          (trc, Except.ok addr) →
        w.parseJson q = Except.error e →
        deploy w (some s) idata =
          (trp ++ (Effect.clientCreate :: Effect.fsRead ap :: trc),
           Res.err ("function arguments is not a json: " ++ e))) := by
  refine ⟨fun hb => ⟨fun c hc => ?_, fun e he => ?_⟩, fun hb => ?_, ?_⟩
  · have hb2 : '{' ∉ s.data := by simpa using hb
    simp [load_params, hb2, hc]
  · have hb2 : '{' ∉ s.data := by simpa using hb
    simp [load_params, hb2, he]
  · have hb2 : '{' ∈ s.data := by simpa using hb
    simp [load_params, hb2]
  · intro idata ap code q abi_str e c kp trp trc addr h1 h2 h3 h4 h5 h6 h7 h8 h9
    have hprep : prepare_deploy_message w code ap q idata.public_key idata.secret_key =
        (Effect.fsRead ap :: trc, Res.err ("function arguments is not a json: " ++ e)) := by
      simp only [prepare_deploy_message, h5, h6, h7, h8, h9]
    have hdc : deploy_contract w code ap q idata.public_key idata.secret_key =
        (Effect.clientCreate :: Effect.fsRead ap :: trc,
         Res.err ("function arguments is not a json: " ++ e)) := by
      simp only [deploy_contract, h4, hprep]
    simp only [deploy, load_abi, h1, h2, h3, hdc]

/-- Witness for claim C3: the file branch (readable file, unreadable
file), the inline branch, and the JSON-parse failure of a loaded
parameters file, all in the concrete environment `wParamsFile`. -/
theorem claim_C3_witness :
    load_params wParamsFile "p.json" = ([Effect.fsRead "p.json"], Except.ok "[1]") ∧
    load_params wParamsFile "q.json" =
      ([Effect.fsRead "q.json"],
       Except.error ("failed to load params from file: " ++ "enoent")) ∧
    load_params wParamsFile "\x7b\x7d" = ([], Except.ok "\x7b\x7d") ∧
    deploy wParamsFile (some "px.json") idataParamsFile =
      ([Effect.fsRead "px.json"] ++
        (Effect.clientCreate :: Effect.fsRead "abi.json" ::
          [Effect.clientCreate, Effect.encodeMsg pEncNoKeysJson]),
       Res.err ("function arguments is not a json: " ++ "expected value at line 1 column 1")) := by
  refine ⟨?_, ?_, ?_, ?_⟩
  · exact ((claim_C3_params_resolution wParamsFile "p.json").1 (by decide)).1 "[1]" rfl
  · exact ((claim_C3_params_resolution wParamsFile "q.json").1 (by decide)).2 "enoent" rfl
  · exact (claim_C3_params_resolution wParamsFile "\x7b\x7d").2.1 (by decide)
  · exact (claim_C3_params_resolution wParamsFile "px.json").2.2 idataParamsFile "abi.json"
      "tvc0" "notjson" "ABIJSON" "expected value at line 1 column 1" { source := "ABIJSON" }
      Option.none [Effect.fsRead "px.json"]
      [Effect.clientCreate, Effect.encodeMsg pEncNoKeysJson] "0:1234"
      rfl rfl rfl rfl rfl rfl rfl rfl rfl

/-! ## Claim C4 -/

/-- Claim C4: on every successful `prepare_deploy_message`, the message
target address is exactly the address the SDK computation returned, and
the encode params sent for address computation agree with the final
message on the ABI value, the contract image and workchain id (the deploy
set), and use the public key of the very keypair that signs the message. -/
theorem claim_C4_address_consistency (w : World) (code ap params : String)
    (pk sk : Option String) (tr : List Effect) (msg : ParamsOfEncodeMessage) (addr : String)
    (h : prepare_deploy_message w code ap params pk sk = (tr, Res.ok (msg, addr))) :
    msg.address = some addr ∧
    ∃ pEnc kp,
      Effect.encodeMsg pEnc ∈ tr ∧
      w.encodeMessage pEnc = Except.ok addr ∧
      pEnc.abi = msg.abi ∧
      pEnc.deploy_set = msg.deploy_set ∧
      msg.deploy_set = some { tvc := code, workchain_id := some WORKCHAIN } ∧
      msg.signer = Signer.keys kp ∧
      pEnc.signer = Signer.external kp.public := by
  obtain ⟨as_, c, kp, pj, hfs, hac, hkp, hpj, henc, hmsg, htr⟩ := prepare_deploy_message_ok_inv h
  subst hmsg
  subst htr
  exact ⟨rfl, calcParams code (some kp.public) (Abi.contract c), kp, by simp, henc,
    rfl, rfl, rfl, rfl, rfl⟩

/-- Witness for claim C4: the consistency theorem evaluated on the
concrete successful run in `wOk`. -/
theorem claim_C4_witness :
    msgOk.address = some "0:1234" ∧
    ∃ pEnc kp,
      Effect.encodeMsg pEnc ∈ trC4 ∧
      wOk.encodeMessage pEnc = Except.ok "0:1234" ∧
      pEnc.abi = msgOk.abi ∧
      pEnc.deploy_set = msgOk.deploy_set ∧
      msgOk.deploy_set = some { tvc := "tvc0", workchain_id := some WORKCHAIN } ∧
      msgOk.signer = Signer.keys kp ∧
      pEnc.signer = Signer.external kp.public :=
  claim_C4_address_consistency wOk "tvc0" "abi.json" "\x7b\x7d" (some "aa") (some "bb")
    trC4 msgOk "0:1234" rfl

/-! ## Claim C5 -/

/-- Claim C5: when the ABI path field is absent from the initial data,
`load_abi` returns the configuration error, `deploy` fails with that same
error while performing no effect at all (no client construction, no SDK
call, no file read), and the whole run prints the corresponding `Fail:`
line after only the two config-file reads. -/
theorem claim_C5_missing_abi_path (w : World) (params : Option String) (idata : InitialData)
    (h : idata.abi_path = Option.none) :
    load_abi idata.abi_path =
      Except.error "ABI file is not defined. Supply it in the config.json." ∧
    deploy w params idata =
      ([], Res.err "ABI file is not defined. Supply it in the config.json.") ∧
    (∀ (cs idp ids : String) (cfg : Config),
        w.fs CONFIG_PATH = Except.ok cs →
        w.parseConfig cs = Except.ok cfg →
        cfg.initial_data = some idp →
        cfg.parameters = params →
        w.fs idp = Except.ok ids →
        w.parseInitialData ids = Except.ok idata →
        main w =
          ([Effect.fsRead CONFIG_PATH, Effect.fsRead idp,
            Effect.print "Fail: ABI file is not defined. Supply it in the config.json."],
           RunExit.normal)) := by
  have hd : deploy w params idata =
      ([], Res.err "ABI file is not defined. Supply it in the config.json.") := by
    unfold deploy
    rw [h]
    rfl
  refine ⟨by rw [h]; rfl, hd, ?_⟩
  intro cs idp ids cfg h1 h2 h3 h4 h5 h6
  simp only [main, get_config, get_initial_data, h1, h2, h3, h5, h6, h4, hd]
  rfl

/-- Witness for claim C5: the theorem evaluated on a concrete initial
data record without an ABI path in the environment `wNoAbiPath`. -/
theorem claim_C5_witness :
    load_abi (Option.none : Option String) =
      Except.error "ABI file is not defined. Supply it in the config.json." ∧
    deploy wNoAbiPath (some "\x7b\x7d")
      { abi_path := Option.none, code_base64 := some "tvc0"
        public_key := some "aa", secret_key := some "bb" } =
      ([], Res.err "ABI file is not defined. Supply it in the config.json.") := by
  have h := claim_C5_missing_abi_path wNoAbiPath (some "\x7b\x7d")
    { abi_path := Option.none, code_base64 := some "tvc0"
      public_key := some "aa", secret_key := some "bb" } rfl
  exact ⟨h.1, h.2.1⟩

/-! ## Claim C6 -/

/-- Claim C6, counterexample to the claim as stated: in
`wMissingAbiFileNoParams` the config references a nonexistent ABI file,
yet the run prints no `Fail:` line at all — the `parameters` field is also
absent, so the run aborts at `params.unwrap()` before the ABI file is ever
touched. -/
theorem claim_C6_counterexample :
    wMissingAbiFileNoParams.fs "abi.json" = Except.error "enoent" ∧
    main wMissingAbiFileNoParams =
      ([Effect.fsRead "config.json", Effect.fsRead "data.json"], RunExit.panicked) ∧
    outputOf (main wMissingAbiFileNoParams).1 = [] :=
  ⟨rfl, rfl, rfl⟩

/-- Claim C6 (amended): when the config loads, the `parameters` field is
present and resolves, the `code_base64` field is present, client creation
succeeds, and the ABI path names an unreadable file, the run ends
normally, prints the `Fail:` line carrying the ABI read-failure message,
and never submits a message (no `process_message` SDK call occurs). -/
theorem claim_C6_amended (w : World) (cs idp ids ps q ap code e : String)
    (cfg : Config) (idata : InitialData) (trp : List Effect)
    (h1 : w.fs CONFIG_PATH = Except.ok cs)
    (h2 : w.parseConfig cs = Except.ok cfg)
    (h3 : cfg.initial_data = some idp)
    (h4 : w.fs idp = Except.ok ids)
    (h5 : w.parseInitialData ids = Except.ok idata)
    (h6 : cfg.parameters = some ps)
    (h7 : load_params w ps = (trp, Except.ok q))
    (h8 : idata.abi_path = some ap)
    (h9 : idata.code_base64 = some code)
    (h10 : w.createClientVerbose = Except.ok ())
    (h11 : w.fs ap = Except.error e) :
    ∃ tr, main w = (tr, RunExit.normal) ∧
      ("Fail: failed to read ABI file: " ++ e) ∈ outputOf tr ∧
      ∀ pp, Effect.processMsg pp ∉ tr := by
  have hdc : deploy_contract w code ap q idata.public_key idata.secret_key =
      ([Effect.clientCreate, Effect.fsRead ap],
       Res.err ("failed to read ABI file: " ++ e)) := by
    unfold deploy_contract prepare_deploy_message
    rw [h10, h11]
  have hd : deploy w (some ps) idata =
      (trp ++ [Effect.clientCreate, Effect.fsRead ap],
       Res.err ("failed to read ABI file: " ++ e)) := by
    simp only [deploy, load_abi, h8, h7, h9, hdc]
  refine ⟨[Effect.fsRead CONFIG_PATH] ++ [Effect.fsRead idp] ++
      (trp ++ [Effect.clientCreate, Effect.fsRead ap]) ++
      [Effect.print ("Fail: failed to read ABI file: " ++ e)], ?_, ?_, ?_⟩
  · simp only [main, get_config, get_initial_data, h1, h2, h3, h4, h5, h6, hd]
    rw [← String.append_assoc]
    rfl
  · simp [outputOf_append, outputOf]
  · intro pp hmem
    rcases load_params_trace h7 with htr | htr <;> subst htr <;> simp at hmem

/-- Witness for claim C6: the amended theorem evaluated in
`wMissingAbiFile`, where the parameters are inline and only the ABI file
is missing. -/
theorem claim_C6_witness :
    ∃ tr, main wMissingAbiFile = (tr, RunExit.normal) ∧
      ("Fail: failed to read ABI file: " ++ "enoent") ∈ outputOf tr ∧
      ∀ pp, Effect.processMsg pp ∉ tr :=
  claim_C6_amended wMissingAbiFile "CFG" "data.json" "DATA" "\x7b\x7d" "\x7b\x7d" "abi.json"
    "tvc0" "enoent"
    { initial_data := some "data.json", parameters := some "\x7b\x7d" }
    { abi_path := some "abi.json", code_base64 := some "tvc0"
      public_key := some "aa", secret_key := some "bb" }
    [] rfl rfl rfl rfl rfl rfl rfl rfl rfl rfl rfl

/-! ## Claim C7 -/

/-- Claim C7, counterexample to the claim as stated: when reading
`config.json` fails, the run completes normally but its only output line
is `Cannot load config: boom`, which is neither `Ok` nor of the
`Fail: <message>` shape — so not every failure path produces `Fail:`
output. -/
theorem claim_C7_counterexample :
    main wBadConfig =
      ([Effect.fsRead "config.json", Effect.print "Cannot load config: boom"], RunExit.normal) ∧
    outputOf (main wBadConfig).1 = ["Cannot load config: boom"] ∧
    (∀ e : String, "Cannot load config: boom" ≠ "Fail: " ++ e) ∧
    "Cannot load config: boom" ≠ "Ok" := by
  refine ⟨rfl, rfl, ?_, by decide⟩
  intro e h
  have h2 := congrArg String.data h
  rw [String.data_append] at h2
  have h3 : ("Cannot load config: boom" : String).data =
      'C' :: "annot load config: boom".data := rfl
  have h4 : ("Fail: " : String).data = 'F' :: "ail: ".data := rfl
  rw [h3, h4, List.cons_append] at h2
  injection h2 with h5 h6
  exact absurd h5 (by decide)

/-- Claim C7 (amended): every run that ends normally (that is, does not
abort in one of the `unwrap` panics) prints as its final line either
`Ok`, or `Fail: <message>`, or — for the two early loading failures —
`Cannot load config: <message>` or `Cannot load initial data: <message>`;
the outcome is carried by printed output, not by the exit code. -/
theorem claim_C7_amended (w : World) (tr : List Effect)
    (h : main w = (tr, RunExit.normal)) :
    ∃ last, (outputOf tr).getLast? = some last ∧
      (last = "Ok" ∨ (∃ e, last = "Fail: " ++ e) ∨
       (∃ e, last = "Cannot load config: " ++ e) ∨
       (∃ e, last = "Cannot load initial data: " ++ e)) := by
  unfold main at h
  split at h
  · rename_i e heq
    injection h with h1 h2
    subst h1
    exact ⟨_, by rw [outputOf_print]; simp [List.getLast?_concat],
      Or.inr (Or.inr (Or.inl ⟨e, rfl⟩))⟩
  · split at h
    · rename_i e heq
      injection h with h1 h2
      subst h1
      exact ⟨_, by rw [outputOf_print]; simp [List.getLast?_concat],
        Or.inr (Or.inr (Or.inr ⟨e, rfl⟩))⟩
    · split at h
      · injection h with h1 h2
        subst h1
        exact ⟨"Ok", by rw [outputOf_print]; simp [List.getLast?_concat], Or.inl rfl⟩
      · rename_i e heq
        injection h with h1 h2
        subst h1
        exact ⟨_, by rw [outputOf_print]; simp [List.getLast?_concat],
          Or.inr (Or.inl ⟨e, rfl⟩)⟩
      · injection h with h1 h2
        exact RunExit.noConfusion h2

/-- Witness for claim C7: the amended theorem evaluated on the concrete
failing-config run of `wBadConfig`. -/
theorem claim_C7_witness :
    ∃ last,
      (outputOf [Effect.fsRead "config.json",
        Effect.print "Cannot load config: boom"]).getLast? = some last ∧
      (last = "Ok" ∨ (∃ e, last = "Fail: " ++ e) ∨
       (∃ e, last = "Cannot load config: " ++ e) ∨
       (∃ e, last = "Cannot load initial data: " ++ e)) :=
  claim_C7_amended wBadConfig
    [Effect.fsRead "config.json", Effect.print "Cannot load config: boom"] rfl

/-! ## Claim C8 -/

/-- Claim C8: every successful `deploy_contract` run ends its trace with
exactly the line `Transaction succeeded.` followed by the line
`Contract deployed at address: ` plus the computed address — so both lines
come after any `MessageId:` line — where the address is the one the SDK
address computation returned and, under the SDK well-formedness assumption
that returned addresses are non-empty, is non-empty. -/
theorem claim_C8_success_output (w : World) (code ap params : String) (pk sk : Option String)
    (tr : List Effect)
    (hne : ∀ p a, w.encodeMessage p = Except.ok a → a ≠ "")
    (h : deploy_contract w code ap params pk sk = (tr, Res.ok ())) :
    ∃ pre addr,
      tr = pre ++ [Effect.print "Transaction succeeded.",
                   Effect.print ("Contract deployed at address: " ++ addr)] ∧
      addr ≠ "" ∧
      (∃ pEnc, Effect.encodeMsg pEnc ∈ pre ∧ w.encodeMessage pEnc = Except.ok addr) ∧
      outputOf tr =
        outputOf pre ++
          ["Transaction succeeded.", "Contract deployed at address: " ++ addr] := by
  unfold deploy_contract at h
  split at h
  · simp at h
  · split at h
    · simp at h
    · simp at h
    · rename_i tr1 msg addr hprep
      split at h
      · simp at h
      · injection h with h1 h2
        subst h1
        obtain ⟨as_, c, kp, pj, hfs, hac, hkp, hpj, henc, hmsg, htr⟩ :=
          prepare_deploy_message_ok_inv hprep
        refine ⟨_, addr, rfl, hne _ _ henc, ?_, ?_⟩
        · exact ⟨calcParams code (some kp.public) (Abi.contract c), by simp [htr], henc⟩
        · simp [outputOf_append, outputOf]

/-- Witness for claim C8: the theorem evaluated on the concrete
successful run of `wOk` (whose SDK always answers `0:1234`). -/
theorem claim_C8_witness :
    ∃ pre addr,
      trC8 = pre ++ [Effect.print "Transaction succeeded.",
                     Effect.print ("Contract deployed at address: " ++ addr)] ∧
      addr ≠ "" ∧
      (∃ pEnc, Effect.encodeMsg pEnc ∈ pre ∧ wOk.encodeMessage pEnc = Except.ok addr) ∧
      outputOf trC8 =
        outputOf pre ++
          ["Transaction succeeded.", "Contract deployed at address: " ++ addr] :=
  claim_C8_success_output wOk "tvc0" "abi.json" "\x7b\x7d" (some "aa") (some "bb") trC8
    (fun p a ha => by
      rw [show wOk.encodeMessage p = Except.ok "0:1234" from rfl] at ha
      injection ha with h2
      subst h2
      decide)
    rfl

/-! ## Claim C9 -/

lemma outputOf_callback (l : List ProcessingEvent) :
    outputOf (l.filterMap callbackOutput) =
      l.filterMap (fun e =>
        match e with
        | ProcessingEvent.didSend _ mid _ => some ("MessageId: " ++ mid)
        | _ => Option.none) := by
  induction l with
  | nil => rfl
  | cons e rest ih =>
    cases e with
    | didSend a b c =>
      simp [callbackOutput, outputOf, List.filterMap_cons] at ih ⊢
      exact ih
    | otherEvent k => simp [callbackOutput, List.filterMap_cons, ih]

/-- Claim C9: submission requests event notifications (`send_events` is
true in the processing params), the trace of the submission call consists
of the SDK call followed by the callback output, that output is exactly
one `MessageId: <id>` line per delivered `DidSend` event (emitted inside
the call, hence before it resolves), and no other event kind produces any
output. -/
theorem claim_C9_event_notifications (w : World) (msg : ParamsOfEncodeMessage) :
    (processParams msg).send_events = true ∧
    (process_message w msg false).1 =
      Effect.processMsg (processParams msg) ::
        (w.deliverEvents (processParams msg)).filterMap callbackOutput ∧
    outputOf ((w.deliverEvents (processParams msg)).filterMap callbackOutput) =
      (w.deliverEvents (processParams msg)).filterMap
        (fun e =>
          match e with
          | ProcessingEvent.didSend _ mid _ => some ("MessageId: " ++ mid)
          | _ => Option.none) ∧
    (∀ sh mid m, callbackOutput (ProcessingEvent.didSend sh mid m) =
        some (Effect.print ("MessageId: " ++ mid))) ∧
    (∀ k, callbackOutput (ProcessingEvent.otherEvent k) = Option.none) := by
  refine ⟨rfl, ?_, outputOf_callback _, fun sh mid m => rfl, fun k => rfl⟩
  unfold process_message
  rcases hp : w.processResult (processParams msg) with e | r
  · simp [callbackPrints]
  · simp [callbackPrints]

end Deployer
